import Mathlib

/-!
Shallow embedding of `src/GCSecretManager.js` (dataful-tech/GCSecretManager).

The source is a Google Apps Script / Node client for the Google Cloud
Secret Manager HTTP API.  Its external collaborators (`UrlFetchApp.fetch`,
`ScriptApp.getOAuthToken`, `Utilities.base64Encode/base64Decode/newBlob`,
`JSON.parse`) are modelled as an explicit environment record `Env`.
Each operation returns the ordered list of HTTP requests it issued
together with its result (`Except SMError _` models JS exceptions).

JavaScript configuration objects are modelled field-by-field: a field is
`none` when the key is absent from the object and `some v` when the key is
present with JS value `v` (which may itself be `null` or `undefined`);
object spread `{...lo, ...hi}` keeps `hi`'s value exactly when the key is
present in `hi`, which is what `mergeField` implements.
-/

/-- A JavaScript value as it can appear in a configuration field or as a
`project` / `version` argument: `undefined`, `null`, a string, or a number
(tests pass numeric versions such as `3`). -/
inductive JSVal where
  | undef : JSVal
  | null : JSVal
  | str : String → JSVal
  | num : Int → JSVal
deriving DecidableEq, Repr

/-- JS template-literal stringification used when a value is interpolated
into a URL. -/
def JSVal.toStr : JSVal → String
  | JSVal.undef => "undefined"
  | JSVal.null => "null"
  | JSVal.str s => s
  | JSVal.num n => toString n

/-- JS truthiness of an optional object field: an absent key reads as
`undefined` (falsy); `null` and `""` and `0` are also falsy. -/
def truthy : Option JSVal → Bool
  | none => false
  | some JSVal.undef => false
  | some JSVal.null => false
  | some (JSVal.str s) => !(s == "")
  | some (JSVal.num n) => !(n == 0)

/-- A configuration object: each field is `none` when the key is absent,
`some v` when present with value `v`. -/
structure ConfigObj where
  project : Option JSVal := none
  version : Option JSVal := none
deriving DecidableEq, Repr

/-- The empty object `{}` used as the default argument of `init`, `get`,
`set`. -/
def emptyConfig : ConfigObj := {}

/-- `DEFAULT_CONFIG = { project: null, version: "latest" }`. -/
def DEFAULT_CONFIG : ConfigObj :=
  { project := some JSVal.null, version := some (JSVal.str "latest") }

/-- One field of JS object spread `{...lo, ...hi}`: the right object's
value wins exactly when the key is present there (even when its value is
`null` or `undefined`). -/
def mergeField (lo hi : Option JSVal) : Option JSVal :=
  match hi with
  | some v => some v
  | none => lo

/-- JS object spread `{...lo, ...hi}` on configuration objects. -/
def mergeConfig (lo hi : ConfigObj) : ConfigObj :=
  { project := mergeField lo.project hi.project
    version := mergeField lo.version hi.version }

/-- The three-layer merge `{...DEFAULT_CONFIG, ...instanceCfg, ...callCfg}`
performed by `getConfig_`. -/
def merge3 (instanceCfg callCfg : ConfigObj) : ConfigObj :=
  mergeConfig (mergeConfig DEFAULT_CONFIG instanceCfg) callCfg

/-- Reading a property of a JS object: an absent key yields `undefined`. -/
def ConfigObj.projectVal (c : ConfigObj) : JSVal :=
  c.project.getD JSVal.undef

/-- Reading the `version` property; absent key yields `undefined`. -/
def ConfigObj.versionVal (c : ConfigObj) : JSVal :=
  c.version.getD JSVal.undef

/-- Errors thrown by the client, classified by throw site following the
spec's taxonomy; each constructor carries the JS `Error` message the
source builds at that site.  `jsError` stands for exceptions raised by
the JS runtime or collaborators (e.g. `JSON.parse` failure) rather than
by an explicit `throw` in the source. -/
inductive SMError where
  | configurationError : String → SMError
  | permissionError : String → SMError
  | unexpectedResponseError : String → Int → SMError
  | jsError : String → SMError
deriving DecidableEq, Repr

/-- A JSON value, for request payloads and parsed response bodies. -/
inductive JsonVal where
  | null : JsonVal
  | bool : Bool → JsonVal
  | num : Int → JsonVal
  | str : String → JsonVal
  | arr : List JsonVal → JsonVal
  | obj : List (String × JsonVal) → JsonVal

/-- Lookup of a member in a JSON object's field list. -/
def lookupField : List (String × JsonVal) → String → Option JsonVal
  | [], _ => none
  | (k, v) :: rest, key => if k == key then some v else lookupField rest key

/-- JS member access `j["k"]`: `undefined` (here `none`) when the value is
not an object or lacks the key. -/
def jsonLookup : Option JsonVal → String → Option JsonVal
  | some (JsonVal.obj fields), key => lookupField fields key
  | _, _ => none

/-- An HTTP response as consumed by the source: `getResponseCode()` and
`getContentText()`. -/
structure HTTPResponse where
  responseCode : Int
  contentText : String := ""
deriving DecidableEq, Repr

/-- An outbound HTTP request, as built by `UrlFetchApp.fetch(url, options)`
in the source.  The JSON body is kept structurally (the source serializes
it with `JSON.stringify` just before sending). -/
structure Request where
  url : String
  method : Option String := none
  muteHttpExceptions : Bool := true
  payload : Option JsonVal := none
  contentType : Option String := none
  authorization : String
  accept : String := "application/json"

/-- The external collaborators: HTTP transport, OAuth token provider,
base64 codec, byte-to-text decoder, JSON parser. -/
structure Env where
  fetch : Request → HTTPResponse
  oauthToken : String
  base64Encode : String → String
  base64Decode : String → List Nat
  bytesToString : List Nat → String
  jsonParse : String → Option JsonVal

/-- The request built by `getSecret`:
GET `…/projects/{project}/secrets/{key}/versions/{version}:access`. -/
def accessReq (token : String) (project : JSVal) (key : String) (version : JSVal) : Request :=
  { url := "https://secretmanager.googleapis.com/v1/projects/" ++ project.toStr
      ++ "/secrets/" ++ key ++ "/versions/" ++ version.toStr ++ ":access"
    authorization := "Bearer " ++ token }

/-- The request built by `createSecret`:
POST `…/projects/{project}/secrets?secretId={key}` with an automatic
replication policy body. -/
def createReq (token : String) (project : JSVal) (key : String) : Request :=
  { url := "https://secretmanager.googleapis.com/v1/projects/" ++ project.toStr
      ++ "/secrets?secretId=" ++ key
    method := some "POST"
    payload := some (JsonVal.obj [("replication", JsonVal.obj [("automatic", JsonVal.obj [])])])
    contentType := some "application/json"
    authorization := "Bearer " ++ token }

/-- The request built by `createSecretVersion`:
POST `…/projects/{project}/secrets/{key}:addVersion` with body
`{ payload: { data: <base64 of the value> } }`. -/
def addVersionReq (token : String) (project : JSVal) (key : String) (dataB64 : String) : Request :=
  { url := "https://secretmanager.googleapis.com/v1/projects/" ++ project.toStr
      ++ "/secrets/" ++ key ++ ":addVersion"
    method := some "POST"
    payload := some (JsonVal.obj [("payload", JsonVal.obj [("data", JsonVal.str dataB64)])])
    contentType := some "application/json"
    authorization := "Bearer " ++ token }

namespace GCSecretManager

/-- `getConfig_(config)` of the class: merge the three layers and require a
truthy `project` (`if (!mergedConfig.project) throw ...`). -/
def getConfig_ (instanceCfg callCfg : ConfigObj) : Except SMError ConfigObj :=
  let mergedConfig := merge3 instanceCfg callCfg
  if truthy mergedConfig.project then Except.ok mergedConfig
  else Except.error (SMError.configurationError "Google Cloud Project is required")

/-- `getSecret(project, key, version)`: one fetch; 403 throws
"Permission denied", 404 returns `undefined`, otherwise the body is JSON
parsed, `payload.data` is base64-decoded and the bytes are read as text.
Returns the issued requests together with the result. -/
def getSecret (env : Env) (project : JSVal) (key : String)
    (version : JSVal := JSVal.str "latest") :
    List Request × Except SMError (Option String) :=
  let req := accessReq env.oauthToken project key version
  let response := env.fetch req
  if response.responseCode == 403 then
    ([req], Except.error (SMError.permissionError "Permission denied"))
  else if response.responseCode == 404 then
    ([req], Except.ok none)
  else
    match env.jsonParse response.contentText with
    | none => ([req], Except.error (SMError.jsError "SyntaxError: unexpected token in JSON"))
    | some j =>
      match jsonLookup (jsonLookup (some j) "payload") "data" with
      | some (JsonVal.str d) =>
        ([req], Except.ok (some (env.bytesToString (env.base64Decode d))))
      | _ => ([req], Except.error (SMError.jsError "TypeError: cannot read property data"))

/-- `createSecret(project, key)`: one POST; the raw response is returned
to the caller. -/
def createSecret (env : Env) (project : JSVal) (key : String) :
    Request × HTTPResponse :=
  let req := createReq env.oauthToken project key
  (req, env.fetch req)

/-- `createSecretVersion(project, key, value)`: one POST whose body holds
the base64 of `value`; the raw response is returned to the caller. -/
def createSecretVersion (env : Env) (project : JSVal) (key : String) (value : String) :
    Request × HTTPResponse :=
  let req := addVersionReq env.oauthToken project key (env.base64Encode value)
  (req, env.fetch req)

/-- `get(key, config)` of the class: resolve configuration, then delegate
to `getSecret` with the merged `project` and `version`. -/
def get (env : Env) (instanceCfg : ConfigObj) (key : String)
    (callCfg : ConfigObj := emptyConfig) :
    List Request × Except SMError (Option String) :=
  match getConfig_ instanceCfg callCfg with
  | Except.error e => ([], Except.error e)
  | Except.ok mergedConfig =>
    getSecret env mergedConfig.projectVal key mergedConfig.versionVal

/-- `set(key, value, config)` of the class: resolve configuration, create
the secret, require status 200 or 409, then add a version and require
status 200. -/
def set (env : Env) (instanceCfg : ConfigObj) (key : String) (value : String)
    (callCfg : ConfigObj := emptyConfig) :
    List Request × Except SMError Unit :=
  match getConfig_ instanceCfg callCfg with
  | Except.error e => ([], Except.error e)
  | Except.ok mergedConfig =>
    let (req1, createSecretResponse) := createSecret env mergedConfig.projectVal key
    if !((createSecretResponse.responseCode == 200) || (createSecretResponse.responseCode == 409)) then
      ([req1], Except.error (SMError.unexpectedResponseError
        ("Unexpected response code from the Secret Manager when creating a new secret: "
          ++ toString createSecretResponse.responseCode)
        createSecretResponse.responseCode))
    else
      let (req2, createSecretVersionResponse) := createSecretVersion env mergedConfig.projectVal key value
      if createSecretVersionResponse.responseCode ≠ 200 then
        ([req1, req2], Except.error (SMError.unexpectedResponseError
          ("Unexpected response code from the Secret Manager when creating a secret version: "
            ++ toString createSecretVersionResponse.responseCode)
          createSecretVersionResponse.responseCode))
      else
        ([req1, req2], Except.ok ())

/-- `setProject(project)`: `this.config_.project = project` viewed as a
transformation of the handle's stored configuration. -/
def setProject (c : ConfigObj) (p : JSVal) : ConfigObj :=
  { c with project := some p }

/-- `setVersion(version)`: `this.config_.version = version` viewed as a
transformation of the handle's stored configuration. -/
def setVersion (c : ConfigObj) (v : JSVal) : ConfigObj :=
  { c with version := some v }

end GCSecretManager

namespace ModuleLevel

/-- Module-level `init(config)`: the new handle's stored configuration is
`{ ...DEFAULT_CONFIG, ...config }`. -/
def init (config : ConfigObj := emptyConfig) : ConfigObj :=
  mergeConfig DEFAULT_CONFIG config

/-- Module-level `get(key, config)` = `init(config).get(key)`. -/
def get (env : Env) (key : String) (config : ConfigObj := emptyConfig) :
    List Request × Except SMError (Option String) :=
  GCSecretManager.get env (init config) key

/-- Module-level `set(key, value, config)` = `init(config).set(key, value)`. -/
def set (env : Env) (key : String) (value : String) (config : ConfigObj := emptyConfig) :
    List Request × Except SMError Unit :=
  GCSecretManager.set env (init config) key value

/-- Module-level `getSecret(project, key, version)` =
`init().getSecret(project, key, version)`; the throwaway handle's
configuration is not consulted. -/
def getSecret (env : Env) (project : JSVal) (key : String)
    (version : JSVal := JSVal.str "latest") :
    List Request × Except SMError (Option String) :=
  GCSecretManager.getSecret env project key version

/-- Module-level `createSecret(project, key)` = `init().createSecret(...)`. -/
def createSecret (env : Env) (project : JSVal) (key : String) :
    Request × HTTPResponse :=
  GCSecretManager.createSecret env project key

/-- Module-level `createSecretVersion(project, key, value)` =
`init().createSecretVersion(...)`. -/
def createSecretVersion (env : Env) (project : JSVal) (key : String) (value : String) :
    Request × HTTPResponse :=
  GCSecretManager.createSecretVersion env project key value

/-- Module-level `setProject(project)` = `init().setProject(project)`:
the stored configuration of the fresh chained handle. -/
def setProject (p : JSVal) : ConfigObj :=
  GCSecretManager.setProject (init emptyConfig) p

end ModuleLevel

/-- A concrete environment used by witnesses: every fetch answers 404. -/
def wEnv : Env :=
  { fetch := fun _ => { responseCode := 404 }
    oauthToken := "mock-oauth-token"
    base64Encode := fun s => s
    base64Decode := fun s => s.toList.map Char.toNat
    bytesToString := fun bs => String.mk (bs.map Char.ofNat)
    jsonParse := fun _ => none }

/-- Whatever the response, `getSecret` issues exactly its one access
request. -/
theorem getSecret_fst (env : Env) (p : JSVal) (k : String) (v : JSVal) :
    (GCSecretManager.getSecret env p k v).fst = [accessReq env.oauthToken p k v] := by
  unfold GCSecretManager.getSecret
  dsimp only
  split
  · rfl
  · split
    · rfl
    · split
      · rfl
      · split <;> rfl

/-- When configuration resolution succeeds, `get` delegates to `getSecret`
with the merged project and version. -/
theorem get_eq_getSecret (env : Env) (instanceCfg callCfg m : ConfigObj) (k : String)
    (h : GCSecretManager.getConfig_ instanceCfg callCfg = Except.ok m) :
    GCSecretManager.get env instanceCfg k callCfg
      = GCSecretManager.getSecret env m.projectVal k m.versionVal := by
  unfold GCSecretManager.get
  rw [h]

/-- When configuration resolution fails, `get` and `set` propagate the
error without issuing a request. -/
theorem get_set_propagate_config_error (env : Env) (instanceCfg callCfg : ConfigObj)
    (k v : String) (e : SMError)
    (h : GCSecretManager.getConfig_ instanceCfg callCfg = Except.error e) :
    GCSecretManager.get env instanceCfg k callCfg = ([], Except.error e)
    ∧ GCSecretManager.set env instanceCfg k v callCfg = ([], Except.error e) := by
  constructor
  · unfold GCSecretManager.get
    rw [h]
  · unfold GCSecretManager.set
    rw [h]

/-- C1: for every configuration whose effective `project` is missing, null
or empty, `get` and `set` fail with the configuration error
"Google Cloud Project is required" and issue zero HTTP requests. -/
theorem c1_missing_project_fails_before_any_request
    (env : Env) (instanceCfg callCfg : ConfigObj) (key value : String)
    (hproj : (merge3 instanceCfg callCfg).project = some JSVal.null
      ∨ (merge3 instanceCfg callCfg).project = some (JSVal.str "")
      ∨ (merge3 instanceCfg callCfg).project = none) :
    GCSecretManager.get env instanceCfg key callCfg
        = ([], Except.error (SMError.configurationError "Google Cloud Project is required"))
    ∧ GCSecretManager.set env instanceCfg key value callCfg
        = ([], Except.error (SMError.configurationError "Google Cloud Project is required")) := by
  have ht : truthy (merge3 instanceCfg callCfg).project = false := by
    rcases hproj with h | h | h <;> rw [h] <;> rfl
  have hc : GCSecretManager.getConfig_ instanceCfg callCfg
      = Except.error (SMError.configurationError "Google Cloud Project is required") := by
    unfold GCSecretManager.getConfig_
    simp [ht]
  exact get_set_propagate_config_error env instanceCfg callCfg key value _ hc

/-- Witness for C1: with no configuration at all, `get` and `set` fail
with the configuration error and an empty request trace. -/
theorem c1_witness :
    GCSecretManager.get wEnv emptyConfig "does-not-exist" emptyConfig
        = ([], Except.error (SMError.configurationError "Google Cloud Project is required"))
    ∧ GCSecretManager.set wEnv emptyConfig "does-not-exist" "v" emptyConfig
        = ([], Except.error (SMError.configurationError "Google Cloud Project is required")) :=
  c1_missing_project_fails_before_any_request wEnv emptyConfig emptyConfig
    "does-not-exist" "v" (Or.inl rfl)

/-- C2: the three configuration layers overlay with call level over
instance level over defaults, per field (a call-level value wins, else
an instance-level one, else the default — "latest" for `version`, null
for `project`), and
chaining `setProject(p).setVersion(v)` on a fresh handle before `get(k)`
issues exactly one request whose path is built from exactly `p` and `v`. -/
theorem c2_precedence_and_chaining :
    (∀ (instanceCfg callCfg : ConfigObj) (v w : JSVal),
      (callCfg.version = some v → (merge3 instanceCfg callCfg).version = some v)
      ∧ (callCfg.version = none → instanceCfg.version = some w →
          (merge3 instanceCfg callCfg).version = some w)
      ∧ (callCfg.version = none → instanceCfg.version = none →
          (merge3 instanceCfg callCfg).version = some (JSVal.str "latest"))
      ∧ (callCfg.project = some v → (merge3 instanceCfg callCfg).project = some v)
      ∧ (callCfg.project = none → instanceCfg.project = some w →
          (merge3 instanceCfg callCfg).project = some w)
      ∧ (callCfg.project = none → instanceCfg.project = none →
          (merge3 instanceCfg callCfg).project = some JSVal.null))
    ∧ (∀ (env : Env) (p ver k : String), p ≠ "" →
        GCSecretManager.get env
            (GCSecretManager.setVersion
              (GCSecretManager.setProject (ModuleLevel.init emptyConfig) (JSVal.str p))
              (JSVal.str ver)) k emptyConfig
          = GCSecretManager.getSecret env (JSVal.str p) k (JSVal.str ver)
        ∧ (GCSecretManager.getSecret env (JSVal.str p) k (JSVal.str ver)).fst
          = [accessReq env.oauthToken (JSVal.str p) k (JSVal.str ver)]
        ∧ (accessReq env.oauthToken (JSVal.str p) k (JSVal.str ver)).url
          = "https://secretmanager.googleapis.com/v1/projects/" ++ p ++ "/secrets/" ++ k
            ++ "/versions/" ++ ver ++ ":access") := by
  constructor
  · intro instanceCfg callCfg v w
    refine ⟨fun hc => ?_, fun hc hi => ?_, fun hc hi => ?_, fun hc => ?_,
      fun hc hi => ?_, fun hc hi => ?_⟩ <;>
      simp [merge3, mergeConfig, mergeField, DEFAULT_CONFIG, hc] <;>
      simp [hi]
  · intro env p ver k hp
    have hcfg : GCSecretManager.getConfig_
        (GCSecretManager.setVersion
          (GCSecretManager.setProject (ModuleLevel.init emptyConfig) (JSVal.str p))
          (JSVal.str ver)) emptyConfig
        = Except.ok { project := some (JSVal.str p), version := some (JSVal.str ver) } := by
      unfold GCSecretManager.getConfig_ GCSecretManager.setVersion GCSecretManager.setProject
        ModuleLevel.init
      simp [merge3, mergeConfig, mergeField, DEFAULT_CONFIG, emptyConfig, truthy, hp]
    refine ⟨?_, getSecret_fst env (JSVal.str p) k (JSVal.str ver), rfl⟩
    have h := get_eq_getSecret env _ emptyConfig _ k hcfg
    exact h

/-- Witness for C2: concrete layers ("call-v" over "inst-v" over
"latest") and a concrete chained call. -/
theorem c2_witness :
    ((merge3 { version := some (JSVal.str "inst-v") } { version := some (JSVal.str "call-v") }).version
        = some (JSVal.str "call-v"))
    ∧ ((merge3 { version := some (JSVal.str "inst-v") } emptyConfig).version
        = some (JSVal.str "inst-v"))
    ∧ ((merge3 emptyConfig emptyConfig).version = some (JSVal.str "latest"))
    ∧ GCSecretManager.get wEnv
        (GCSecretManager.setVersion
          (GCSecretManager.setProject (ModuleLevel.init emptyConfig) (JSVal.str "my-project"))
          (JSVal.str "3")) "does-not-exist" emptyConfig
      = GCSecretManager.getSecret wEnv (JSVal.str "my-project") "does-not-exist" (JSVal.str "3") :=
  ⟨(c2_precedence_and_chaining.1 { version := some (JSVal.str "inst-v") }
      { version := some (JSVal.str "call-v") } (JSVal.str "call-v") (JSVal.str "inst-v")).1 rfl,
   (c2_precedence_and_chaining.1 { version := some (JSVal.str "inst-v") }
      emptyConfig (JSVal.str "call-v") (JSVal.str "inst-v")).2.1 rfl rfl,
   (c2_precedence_and_chaining.1 emptyConfig emptyConfig
      (JSVal.str "call-v") (JSVal.str "inst-v")).2.2.1 rfl rfl,
   (c2_precedence_and_chaining.2 wEnv "my-project" "3" "does-not-exist" (by decide)).1⟩

/-- C3 counterexample: with instance layer `{project: "p"}` and call
layer `{project: null}`, the merged `project` is `null` — the explicit
`null` override clears the previously set value, and resolution then
fails — contradicting the claim that a null override does not clear a
lower-precedence field. -/
theorem c3_counterexample :
    (merge3 { project := some (JSVal.str "p") } { project := some JSVal.null }).project
        = some JSVal.null
    ∧ (merge3 { project := some (JSVal.str "p") } { project := some JSVal.null }).project
        ≠ some (JSVal.str "p")
    ∧ GCSecretManager.getConfig_ { project := some (JSVal.str "p") } { project := some JSVal.null }
        = Except.error (SMError.configurationError "Google Cloud Project is required") :=
  ⟨rfl, by decide, rfl⟩

/-- C3 amended: a key absent from a higher-precedence layer does not
clear a lower-precedence value, but a key present in the higher layer
always replaces it, whatever its value — including `null` and
`undefined` (right-most present key wins per field). -/
theorem c3_amended_present_key_wins (lo hi : ConfigObj) (v : JSVal) :
    (hi.project = none → (mergeConfig lo hi).project = lo.project)
    ∧ (hi.project = some v → (mergeConfig lo hi).project = some v)
    ∧ (hi.version = none → (mergeConfig lo hi).version = lo.version)
    ∧ (hi.version = some v → (mergeConfig lo hi).version = some v) := by
  refine ⟨fun h => ?_, fun h => ?_, fun h => ?_, fun h => ?_⟩ <;>
    simp [mergeConfig, mergeField, h]

/-- Witness for C3's amended statement: an absent key keeps "p"; a
present `null` key replaces it. -/
theorem c3_amended_witness :
    ((mergeConfig { project := some (JSVal.str "p") } emptyConfig).project
        = some (JSVal.str "p"))
    ∧ ((mergeConfig { project := some (JSVal.str "p") } { project := some JSVal.null }).project
        = some JSVal.null) :=
  ⟨(c3_amended_present_key_wins { project := some (JSVal.str "p") } emptyConfig JSVal.null).1 rfl,
   (c3_amended_present_key_wins { project := some (JSVal.str "p") }
      { project := some JSVal.null } JSVal.null).2.1 rfl⟩

/-- A concrete environment whose transport answers status 500 with a body
that parses to `{"payload":{"data":"x"}}`. -/
def env500 : Env :=
  { fetch := fun _ => { responseCode := 500, contentText := "BODY" }
    oauthToken := "mock-oauth-token"
    base64Encode := fun s => s
    base64Decode := fun _ => []
    bytesToString := fun _ => "decoded-x"
    jsonParse := fun _ =>
      some (JsonVal.obj [("payload", JsonVal.obj [("data", JsonVal.str "x")])]) }

/-- C4, behaviour of the code at the failing input: on a fetch-secret
response with status 500 whose body parses to
`{"payload":{"data":"x"}}`, `getSecret` does not raise an
`UnexpectedResponseError` — it falls through to JSON parsing and returns
the decoded payload as if the call had succeeded. -/
theorem c4_unexpected_read_status_falls_through :
    GCSecretManager.getSecret env500 (JSVal.str "my-project") "secret-key" (JSVal.str "latest")
      = ([accessReq "mock-oauth-token" (JSVal.str "my-project") "secret-key" (JSVal.str "latest")],
         Except.ok (some "decoded-x")) := rfl

/-- C5: a fetch-secret response with status 403 makes `getSecret` fail
with the permission error, a 404 makes it return the empty result with
no error, and `get` (after successful configuration resolution) returns
exactly what `getSecret` returns. -/
theorem c5_403_permission_404_empty (env : Env) (p : JSVal) (k : String) (v : JSVal) :
    ((env.fetch (accessReq env.oauthToken p k v)).responseCode = 403 →
      GCSecretManager.getSecret env p k v
        = ([accessReq env.oauthToken p k v],
           Except.error (SMError.permissionError "Permission denied")))
    ∧ ((env.fetch (accessReq env.oauthToken p k v)).responseCode = 404 →
      GCSecretManager.getSecret env p k v
        = ([accessReq env.oauthToken p k v], Except.ok none))
    ∧ (∀ (instanceCfg callCfg m : ConfigObj),
        GCSecretManager.getConfig_ instanceCfg callCfg = Except.ok m →
        GCSecretManager.get env instanceCfg k callCfg
          = GCSecretManager.getSecret env m.projectVal k m.versionVal) := by
  refine ⟨fun h => ?_, fun h => ?_, fun instanceCfg callCfg m hm => ?_⟩
  · simp [GCSecretManager.getSecret, h]
  · simp [GCSecretManager.getSecret, h]
  · exact get_eq_getSecret env instanceCfg callCfg m k hm

/-- A concrete environment whose transport answers status 403. -/
def env403 : Env :=
  { fetch := fun _ => { responseCode := 403 }
    oauthToken := "mock-oauth-token"
    base64Encode := fun s => s
    base64Decode := fun _ => []
    bytesToString := fun _ => ""
    jsonParse := fun _ => none }

/-- Witness for C5: a 403 environment yields the permission error and a
404 environment yields the empty result. -/
theorem c5_witness :
    (GCSecretManager.getSecret env403 (JSVal.str "my-project") "secret-key" (JSVal.str "latest")
      = ([accessReq env403.oauthToken (JSVal.str "my-project") "secret-key" (JSVal.str "latest")],
         Except.error (SMError.permissionError "Permission denied")))
    ∧ (GCSecretManager.getSecret wEnv (JSVal.str "my-project") "does-not-exist" (JSVal.str "latest")
      = ([accessReq wEnv.oauthToken (JSVal.str "my-project") "does-not-exist" (JSVal.str "latest")],
         Except.ok none)) :=
  ⟨(c5_403_permission_404_empty env403 (JSVal.str "my-project") "secret-key"
      (JSVal.str "latest")).1 rfl,
   (c5_403_permission_404_empty wEnv (JSVal.str "my-project") "does-not-exist"
      (JSVal.str "latest")).2.1 rfl⟩

/-- C6: a fetch-secret response with status 200 whose body parses to
`{"payload":{"data":D}}` makes `getSecret` return the base64-decoded
`D` read as text. -/
theorem c6_200_decodes_payload (env : Env) (p : JSVal) (k : String) (v : JSVal) (d : String)
    (h200 : (env.fetch (accessReq env.oauthToken p k v)).responseCode = 200)
    (hbody : env.jsonParse (env.fetch (accessReq env.oauthToken p k v)).contentText
      = some (JsonVal.obj [("payload", JsonVal.obj [("data", JsonVal.str d)])])) :
    GCSecretManager.getSecret env p k v
      = ([accessReq env.oauthToken p k v],
         Except.ok (some (env.bytesToString (env.base64Decode d)))) := by
  simp [GCSecretManager.getSecret, h200, hbody, jsonLookup, lookupField]

/-- A concrete environment whose transport answers status 200 with a body
that parses to `{"payload":{"data":"c2VjcmV0"}}`; its base64 codec and
byte decoder round-trip through character codes. -/
def env200 : Env :=
  { fetch := fun _ => { responseCode := 200, contentText := "BODY" }
    oauthToken := "mock-oauth-token"
    base64Encode := fun s => s
    base64Decode := fun s => s.toList.map Char.toNat
    bytesToString := fun bs => String.mk (bs.map Char.ofNat)
    jsonParse := fun _ =>
      some (JsonVal.obj [("payload", JsonVal.obj [("data", JsonVal.str "c2VjcmV0")])]) }

/-- Witness for C6: the 200 environment yields the decoded payload. -/
theorem c6_witness :
    GCSecretManager.getSecret env200 (JSVal.str "my-project") "secret-key" (JSVal.str "latest")
      = ([accessReq env200.oauthToken (JSVal.str "my-project") "secret-key" (JSVal.str "latest")],
         Except.ok (some (env200.bytesToString (env200.base64Decode "c2VjcmV0")))) :=
  c6_200_decodes_payload env200 (JSVal.str "my-project") "secret-key" (JSVal.str "latest")
    "c2VjcmV0" rfl rfl

/-- C7: when configuration resolves and the create-secret response status
is neither 200 nor 409, `set` fails with the unexpected-response error
carrying that status and issues exactly the one create-secret request —
the add-version request is never sent. -/
theorem c7_set_stops_on_unexpected_create_status
    (env : Env) (instanceCfg callCfg m : ConfigObj) (key value : String)
    (hok : GCSecretManager.getConfig_ instanceCfg callCfg = Except.ok m)
    (h200 : (env.fetch (createReq env.oauthToken m.projectVal key)).responseCode ≠ 200)
    (h409 : (env.fetch (createReq env.oauthToken m.projectVal key)).responseCode ≠ 409) :
    GCSecretManager.set env instanceCfg key value callCfg
      = ([createReq env.oauthToken m.projectVal key],
         Except.error (SMError.unexpectedResponseError
           ("Unexpected response code from the Secret Manager when creating a new secret: "
             ++ toString (env.fetch (createReq env.oauthToken m.projectVal key)).responseCode)
           (env.fetch (createReq env.oauthToken m.projectVal key)).responseCode)) := by
  unfold GCSecretManager.set GCSecretManager.createSecret
  rw [hok]
  dsimp only
  split
  · rfl
  · next hcond =>
    exfalso
    simp at hcond
    exact h409 (hcond h200)

/-- A concrete environment whose transport answers status 500 to every
request. -/
def envSet500 : Env :=
  { fetch := fun _ => { responseCode := 500 }
    oauthToken := "mock-oauth-token"
    base64Encode := fun s => s
    base64Decode := fun _ => []
    bytesToString := fun _ => ""
    jsonParse := fun _ => none }

/-- Witness for C7: a transport answering 500 makes `set` raise the
unexpected-response error after the single create request. -/
theorem c7_witness :
    GCSecretManager.set envSet500 { project := some (JSVal.str "my-project") }
        "new-secret" "new-secret-value" emptyConfig
      = ([createReq "mock-oauth-token" (JSVal.str "my-project") "new-secret"],
         Except.error (SMError.unexpectedResponseError
           "Unexpected response code from the Secret Manager when creating a new secret: 500"
           500)) :=
  c7_set_stops_on_unexpected_create_status envSet500
    { project := some (JSVal.str "my-project") } emptyConfig
    { project := some (JSVal.str "my-project"), version := some (JSVal.str "latest") }
    "new-secret" "new-secret-value" rfl (by decide) (by decide)

/-- After a 200 or 409 create-secret response, `set` is determined by the
add-version response: two requests either way, an error exactly when the
add-version status is not 200. -/
theorem set_after_create_ok
    (env : Env) (instanceCfg callCfg m : ConfigObj) (key value : String)
    (hok : GCSecretManager.getConfig_ instanceCfg callCfg = Except.ok m)
    (hcreate : (env.fetch (createReq env.oauthToken m.projectVal key)).responseCode = 200
      ∨ (env.fetch (createReq env.oauthToken m.projectVal key)).responseCode = 409) :
    GCSecretManager.set env instanceCfg key value callCfg
      = (if (env.fetch (addVersionReq env.oauthToken m.projectVal key
              (env.base64Encode value))).responseCode ≠ 200 then
          ([createReq env.oauthToken m.projectVal key,
            addVersionReq env.oauthToken m.projectVal key (env.base64Encode value)],
           Except.error (SMError.unexpectedResponseError
             ("Unexpected response code from the Secret Manager when creating a secret version: "
               ++ toString (env.fetch (addVersionReq env.oauthToken m.projectVal key
                    (env.base64Encode value))).responseCode)
             (env.fetch (addVersionReq env.oauthToken m.projectVal key
               (env.base64Encode value))).responseCode))
        else
          ([createReq env.oauthToken m.projectVal key,
            addVersionReq env.oauthToken m.projectVal key (env.base64Encode value)],
           Except.ok ())) := by
  unfold GCSecretManager.set GCSecretManager.createSecret GCSecretManager.createSecretVersion
  rw [hok]
  dsimp only
  have hcond : (!((env.fetch (createReq env.oauthToken m.projectVal key)).responseCode == 200
      || (env.fetch (createReq env.oauthToken m.projectVal key)).responseCode == 409)) = false := by
    rcases hcreate with h | h <;> simp [h]
  rw [hcond]
  simp

/-- C8: when configuration resolves and the create-secret response status
is 200 or 409, `set` issues exactly two requests in order — create-secret
then add-version — the add-version payload's `data` field is the base64
of the value, and `set` succeeds when the add-version status is 200. -/
theorem c8_set_two_requests_in_order
    (env : Env) (instanceCfg callCfg m : ConfigObj) (key value : String)
    (hok : GCSecretManager.getConfig_ instanceCfg callCfg = Except.ok m)
    (hcreate : (env.fetch (createReq env.oauthToken m.projectVal key)).responseCode = 200
      ∨ (env.fetch (createReq env.oauthToken m.projectVal key)).responseCode = 409) :
    (GCSecretManager.set env instanceCfg key value callCfg).fst
      = [createReq env.oauthToken m.projectVal key,
         addVersionReq env.oauthToken m.projectVal key (env.base64Encode value)]
    ∧ (addVersionReq env.oauthToken m.projectVal key (env.base64Encode value)).payload
      = some (JsonVal.obj [("payload",
          JsonVal.obj [("data", JsonVal.str (env.base64Encode value))])])
    ∧ ((env.fetch (addVersionReq env.oauthToken m.projectVal key
          (env.base64Encode value))).responseCode = 200 →
        GCSecretManager.set env instanceCfg key value callCfg
          = ([createReq env.oauthToken m.projectVal key,
              addVersionReq env.oauthToken m.projectVal key (env.base64Encode value)],
             Except.ok ())) := by
  have hset := set_after_create_ok env instanceCfg callCfg m key value hok hcreate
  refine ⟨?_, rfl, fun h2 => ?_⟩
  · rw [hset]
    split <;> rfl
  · rw [hset, if_neg (by rw [h2]; exact fun hne => hne rfl)]

/-- A concrete environment whose transport answers status 200 to every
request. -/
def envSet200 : Env :=
  { fetch := fun _ => { responseCode := 200 }
    oauthToken := "mock-oauth-token"
    base64Encode := fun s => s
    base64Decode := fun _ => []
    bytesToString := fun _ => ""
    jsonParse := fun _ => none }

/-- Witness for C8: with a transport answering 200, `set` issues the two
requests in order and succeeds; the add-version payload carries the
base64 of the value. -/
theorem c8_witness :
    (GCSecretManager.set envSet200 { project := some (JSVal.str "my-project") }
        "new-secret" "new-secret-value" emptyConfig).fst
      = [createReq "mock-oauth-token" (JSVal.str "my-project") "new-secret",
         addVersionReq "mock-oauth-token" (JSVal.str "my-project") "new-secret" "new-secret-value"]
    ∧ (addVersionReq "mock-oauth-token" (JSVal.str "my-project") "new-secret"
        "new-secret-value").payload
      = some (JsonVal.obj [("payload", JsonVal.obj [("data", JsonVal.str "new-secret-value")])])
    ∧ GCSecretManager.set envSet200 { project := some (JSVal.str "my-project") }
        "new-secret" "new-secret-value" emptyConfig
      = ([createReq "mock-oauth-token" (JSVal.str "my-project") "new-secret",
          addVersionReq "mock-oauth-token" (JSVal.str "my-project") "new-secret"
            "new-secret-value"],
         Except.ok ()) :=
  ⟨(c8_set_two_requests_in_order envSet200 { project := some (JSVal.str "my-project") }
      emptyConfig
      { project := some (JSVal.str "my-project"), version := some (JSVal.str "latest") }
      "new-secret" "new-secret-value" rfl (Or.inl rfl)).1,
   (c8_set_two_requests_in_order envSet200 { project := some (JSVal.str "my-project") }
      emptyConfig
      { project := some (JSVal.str "my-project"), version := some (JSVal.str "latest") }
      "new-secret" "new-secret-value" rfl (Or.inl rfl)).2.1,
   (c8_set_two_requests_in_order envSet200 { project := some (JSVal.str "my-project") }
      emptyConfig
      { project := some (JSVal.str "my-project"), version := some (JSVal.str "latest") }
      "new-secret" "new-secret-value" rfl (Or.inl rfl)).2.2 rfl⟩

/-- Successful configuration resolution implies the merged `project` is
truthy. -/
theorem getConfig_ok_truthy (instanceCfg callCfg m : ConfigObj)
    (h : GCSecretManager.getConfig_ instanceCfg callCfg = Except.ok m) :
    truthy m.project = true := by
  unfold GCSecretManager.getConfig_ at h
  dsimp only at h
  split at h
  · next ht =>
    cases h
    exact ht
  · cases h

/-- A truthy JS value is neither `null` nor `undefined` nor the empty
string. -/
theorem truthy_val_ne (v : JSVal) (h : truthy (some v) = true) :
    v ≠ JSVal.null ∧ v ≠ JSVal.undef ∧ v ≠ JSVal.str "" := by
  cases v with
  | undef => exact absurd h (by decide)
  | null => exact absurd h (by decide)
  | str s =>
    refine ⟨?_, ?_, ?_⟩
    · intro hx
      cases hx
    · intro hx
      cases hx
    · intro hx
      rw [hx] at h
      exact absurd h (by decide)
  | num n =>
    refine ⟨?_, ?_, ?_⟩ <;> intro hx <;> cases hx

/-- C9 (amended): the configuration-resolving operations `get` and `set`
issue a request only after successful resolution, so whenever their
request trace is non-empty the resolved `project` is neither null nor
undefined nor empty. -/
theorem c9_config_resolving_calls_use_truthy_project
    (env : Env) (instanceCfg callCfg : ConfigObj) (key value : String) :
    ((GCSecretManager.get env instanceCfg key callCfg).fst ≠ [] →
      ∃ m, GCSecretManager.getConfig_ instanceCfg callCfg = Except.ok m
        ∧ m.projectVal ≠ JSVal.null ∧ m.projectVal ≠ JSVal.undef
        ∧ m.projectVal ≠ JSVal.str "")
    ∧ ((GCSecretManager.set env instanceCfg key value callCfg).fst ≠ [] →
      ∃ m, GCSecretManager.getConfig_ instanceCfg callCfg = Except.ok m
        ∧ m.projectVal ≠ JSVal.null ∧ m.projectVal ≠ JSVal.undef
        ∧ m.projectVal ≠ JSVal.str "") := by
  have main : ∀ (m : ConfigObj),
      GCSecretManager.getConfig_ instanceCfg callCfg = Except.ok m →
      m.projectVal ≠ JSVal.null ∧ m.projectVal ≠ JSVal.undef
        ∧ m.projectVal ≠ JSVal.str "" := by
    intro m hm
    have ht := getConfig_ok_truthy instanceCfg callCfg m hm
    cases hp : m.project with
    | none =>
      rw [hp] at ht
      exact absurd ht (by decide)
    | some v =>
      have hv : m.projectVal = v := by
        unfold ConfigObj.projectVal
        rw [hp]
        rfl
      rw [hv]
      rw [hp] at ht
      exact truthy_val_ne v ht
  constructor
  · intro hne
    cases hcfg : GCSecretManager.getConfig_ instanceCfg callCfg with
    | error e =>
      have := (get_set_propagate_config_error env instanceCfg callCfg key value e hcfg).1
      rw [this] at hne
      exact absurd rfl hne
    | ok m => exact ⟨m, rfl, main m hcfg⟩
  · intro hne
    cases hcfg : GCSecretManager.getConfig_ instanceCfg callCfg with
    | error e =>
      have := (get_set_propagate_config_error env instanceCfg callCfg key value e hcfg).2
      rw [this] at hne
      exact absurd rfl hne
    | ok m => exact ⟨m, rfl, main m hcfg⟩

/-- Witness for C9's amended statement: with a configured project, `get`
issues a request and the resolved project is truthy. -/
theorem c9_witness :
    ∃ m, GCSecretManager.getConfig_ { project := some (JSVal.str "my-project") } emptyConfig
        = Except.ok m
      ∧ m.projectVal ≠ JSVal.null ∧ m.projectVal ≠ JSVal.undef
      ∧ m.projectVal ≠ JSVal.str "" :=
  (c9_config_resolving_calls_use_truthy_project wEnv
    { project := some (JSVal.str "my-project") } emptyConfig "secret-key" "v").1 (by
      rw [show (GCSecretManager.get wEnv { project := some (JSVal.str "my-project") }
          "secret-key" emptyConfig).fst
          = [accessReq wEnv.oauthToken (JSVal.str "my-project") "secret-key"
              (JSVal.str "latest")] from rfl]
      exact List.cons_ne_nil _ _)

/-- C9 counterexample: the direct primitive `getSecret` (module level,
`init().getSecret(...)`) performs no validation — called with a null
`project` it still issues one request, whose URL interpolates the string
"null" into the project segment. -/
theorem c9_counterexample :
    (ModuleLevel.getSecret wEnv JSVal.null "secret-key" (JSVal.str "latest")).fst
        = [accessReq "mock-oauth-token" JSVal.null "secret-key" (JSVal.str "latest")]
    ∧ (accessReq "mock-oauth-token" JSVal.null "secret-key" (JSVal.str "latest")).url
        = "https://secretmanager.googleapis.com/v1/projects/null/secrets/secret-key/versions/latest:access" :=
  ⟨rfl, rfl⟩

/-- A heap of mutable JS configuration objects, addressed by index; by
convention index 0 holds the module's `DEFAULT_CONFIG` object.  This
models object identity: `init` allocates, the chainable setters mutate
the handle's own object in place. -/
structure Store where
  objs : List ConfigObj
deriving DecidableEq, Repr

/-- Read the object at a reference (a dangling reference reads as the
empty object; never exercised by the theorems). -/
def readObj (s : Store) (r : Nat) : ConfigObj :=
  s.objs.getD r emptyConfig

/-- Overwrite the object at a reference. -/
def writeObj (s : Store) (r : Nat) (o : ConfigObj) : Store :=
  ⟨s.objs.set r o⟩

/-- Allocate a fresh object, returning the new store and its reference. -/
def allocObj (s : Store) (o : ConfigObj) : Store × Nat :=
  (⟨s.objs ++ [o]⟩, s.objs.length)

/-- `init(c)` on the heap: build `{ ...DEFAULT_CONFIG, ...c }` as a fresh
object (the source's spread allocates a new object) and hand back a
reference to it as the new handle's `config_`. -/
def heapInit (s : Store) (cRef : Nat) : Store × Nat :=
  allocObj s (mergeConfig (readObj s 0) (readObj s cRef))

/-- One chained setter call on a handle. -/
inductive SetterOp where
  | setProj : JSVal → SetterOp
  | setVers : JSVal → SetterOp
deriving DecidableEq, Repr

/-- Apply one setter to the handle at reference `h`: mutate that object
in place. -/
def applySetter (s : Store) (h : Nat) : SetterOp → Store
  | SetterOp.setProj p => writeObj s h (GCSecretManager.setProject (readObj s h) p)
  | SetterOp.setVers v => writeObj s h (GCSecretManager.setVersion (readObj s h) v)

/-- Apply a sequence of chained setters to the handle at reference `h`. -/
def applySetters (s : Store) (h : Nat) : List SetterOp → Store
  | [] => s
  | op :: ops => applySetters (applySetter s h op) h ops

/-- Setting one list position leaves every other position unchanged. -/
theorem getD_set_ne (l : List ConfigObj) (i j : Nat) (a d : ConfigObj) (hij : i ≠ j) :
    (l.set i a).getD j d = l.getD j d := by
  induction l generalizing i j with
  | nil => rfl
  | cons x xs ih =>
    cases i with
    | zero =>
      cases j with
      | zero => exact absurd rfl hij
      | succ j' => rfl
    | succ i' =>
      cases j with
      | zero => rfl
      | succ j' => exact ih i' j' (fun he => hij (by rw [he]))

/-- Appending to a list leaves every existing position unchanged. -/
theorem getD_append_lt (l l' : List ConfigObj) (r : Nat) (d : ConfigObj)
    (h : r < l.length) :
    (l ++ l').getD r d = l.getD r d := by
  induction l generalizing r with
  | nil => exact absurd h (Nat.not_lt_zero r)
  | cons x xs ih =>
    cases r with
    | zero => rfl
    | succ r' => exact ih r' (Nat.lt_of_succ_lt_succ h)

/-- Reading the freshly appended position yields the appended object. -/
theorem getD_append_length (l : List ConfigObj) (o d : ConfigObj) :
    (l ++ [o]).getD l.length d = o := by
  induction l with
  | nil => rfl
  | cons x xs ih => exact ih

/-- A setter on the handle at `h` leaves every other reference unchanged. -/
theorem applySetter_readObj_ne (s : Store) (h r : Nat) (op : SetterOp) (hr : r ≠ h) :
    readObj (applySetter s h op) r = readObj s r := by
  cases op with
  | setProj p => exact getD_set_ne s.objs h r _ emptyConfig (Ne.symm hr)
  | setVers v => exact getD_set_ne s.objs h r _ emptyConfig (Ne.symm hr)

/-- A setter sequence on the handle at `h` leaves every other reference
unchanged. -/
theorem applySetters_readObj_ne (ops : List SetterOp) (s : Store) (h r : Nat)
    (hr : r ≠ h) :
    readObj (applySetters s h ops) r = readObj s r := by
  induction ops generalizing s with
  | nil => rfl
  | cons op ops ih =>
    rw [show applySetters s h (op :: ops) = applySetters (applySetter s h op) h ops from rfl]
    rw [ih (applySetter s h op)]
    exact applySetter_readObj_ne s h r op hr

/-- C10: `init(c)` stores a fresh shallow copy `{...DEFAULT_CONFIG, ...c}`
in the new handle, so any sequence of `setProject`/`setVersion` calls on
that handle leaves every pre-existing object — the `DEFAULT_CONFIG`
object at reference 0, the caller's object `c`, and every earlier
handle's configuration — unchanged. -/
theorem c10_init_fresh_copy_isolated
    (s : Store) (cRef : Nat) (ops : List SetterOp) (r : Nat)
    (hr : r < s.objs.length) :
    readObj (applySetters (heapInit s cRef).fst (heapInit s cRef).snd ops) r = readObj s r
    ∧ readObj (heapInit s cRef).fst (heapInit s cRef).snd
      = mergeConfig (readObj s 0) (readObj s cRef) := by
  constructor
  · rw [applySetters_readObj_ne ops (heapInit s cRef).fst (heapInit s cRef).snd r
      (Nat.ne_of_lt hr)]
    exact getD_append_lt s.objs _ r emptyConfig hr
  · exact getD_append_length s.objs _ emptyConfig

/-- Witness for C10: a store holding `DEFAULT_CONFIG` and a caller
object; after `init` and two chained setters on the new handle, the
caller's object is untouched and the handle holds the merged copy. -/
theorem c10_witness :
    readObj
        (applySetters
          (heapInit ⟨[DEFAULT_CONFIG, { project := some (JSVal.str "caller-project") }]⟩ 1).fst
          (heapInit ⟨[DEFAULT_CONFIG, { project := some (JSVal.str "caller-project") }]⟩ 1).snd
          [SetterOp.setProj (JSVal.str "other"), SetterOp.setVers (JSVal.num 3)]) 1
      = { project := some (JSVal.str "caller-project") }
    ∧ readObj (heapInit ⟨[DEFAULT_CONFIG, { project := some (JSVal.str "caller-project") }]⟩ 1).fst
        (heapInit ⟨[DEFAULT_CONFIG, { project := some (JSVal.str "caller-project") }]⟩ 1).snd
      = mergeConfig DEFAULT_CONFIG { project := some (JSVal.str "caller-project") } :=
  ⟨(c10_init_fresh_copy_isolated
      ⟨[DEFAULT_CONFIG, { project := some (JSVal.str "caller-project") }]⟩ 1
      [SetterOp.setProj (JSVal.str "other"), SetterOp.setVers (JSVal.num 3)] 1
      (by decide)).1,
   (c10_init_fresh_copy_isolated
      ⟨[DEFAULT_CONFIG, { project := some (JSVal.str "caller-project") }]⟩ 1
      [SetterOp.setProj (JSVal.str "other"), SetterOp.setVers (JSVal.num 3)] 1
      (by decide)).2⟩
